import Mathlib

/-!
Verification of the MDSF-Migration pipeline (uStore → MDSF catalog migration).

Shallow embedding of the Python sources:
  SEO_generator.py, fields_mapper.py, store_filter.py, orchestrator.py,
  asset_linker.py, packager.py.

Python strings are modelled as `List Char`; Python's ASCII-relevant string
primitives (`lower`, `strip`, `split`, `replace`, substring test `in`) are
embedded below.  All inputs evaluated concretely in this development are
ASCII, where these embeddings agree with CPython.
-/

namespace MDSF

/-- The double-quote character (written via its code point). -/
def dq : Char := Char.ofNat 34

/-- The single-quote character (written via its code point). -/
def sq : Char := Char.ofNat 39

def isAsciiUpper (c : Char) : Bool := 'A' ≤ c && c ≤ 'Z'

def isAsciiLower (c : Char) : Bool := 'a' ≤ c && c ≤ 'z'

def isDigitChar (c : Char) : Bool := '0' ≤ c && c ≤ '9'

/-- ASCII whitespace recognised by Python's `str.strip`, `str.split` and `\s`. -/
def isSpaceChar (c : Char) : Bool :=
  c = ' ' || c = Char.ofNat 9 || c = Char.ofNat 10 || c = Char.ofNat 13 ||
  c = Char.ofNat 12 || c = Char.ofNat 11

/-- Word character for the regex `\b` boundary: `[A-Za-z0-9_]`. -/
def isWordChar (c : Char) : Bool :=
  isAsciiUpper c || isAsciiLower c || isDigitChar c || c = '_'

/-- ASCII lower-casing of one character (Python `str.lower` restricted to ASCII). -/
def pyLowerChar (c : Char) : Char :=
  if isAsciiUpper c then Char.ofNat (c.toNat + 32) else c

/-- Python `str.lower` (ASCII fragment). -/
def pyLower (s : List Char) : List Char := s.map pyLowerChar

/-- Python substring test `needle in hay`. -/
def containsSub (hay needle : List Char) : Bool :=
  if needle.isPrefixOf hay then true
  else
    match hay with
    | [] => false
    | _ :: t => containsSub t needle

/-- Python `str.strip()` (ASCII whitespace). -/
def pyStrip (s : List Char) : List Char :=
  ((s.dropWhile isSpaceChar).reverse.dropWhile isSpaceChar).reverse

/-- Helper for `splitWs`: `cur` is the current word, reversed. -/
def splitWsAux : List Char → List Char → List (List Char)
  | cur, [] => if cur = [] then [] else [cur.reverse]
  | cur, c :: rest =>
    if isSpaceChar c then
      if cur = [] then splitWsAux [] rest else cur.reverse :: splitWsAux [] rest
    else splitWsAux (c :: cur) rest

/-- Python `str.split()` with no separator: split on whitespace runs, no empties. -/
def splitWs (s : List Char) : List (List Char) := splitWsAux [] s

/-- Python `str.split(sep)` for a one-character separator (keeps empty pieces). -/
def splitOnChar (c : Char) (s : List Char) : List (List Char) := s.splitOn c

/-- Helper for `replaceSub`; the fuel `s.length` is exact, since every step
consumes at least one character.  Structural recursion on the fuel keeps the
function kernel-reducible. -/
def replaceSubGo (old new : List Char) : Nat → List Char → List Char
  | _, [] => []
  | 0, s => s
  | fuel + 1, c :: t =>
    if old ≠ [] ∧ old.isPrefixOf (c :: t) then
      new ++ replaceSubGo old new fuel ((c :: t).drop old.length)
    else
      c :: replaceSubGo old new fuel t

/-- Python `str.replace(old, new)`: every non-overlapping occurrence,
left to right.  (With `old = ""` CPython interleaves `new` everywhere; that
case never occurs in this code base.) -/
def replaceSub (s old new : List Char) : List Char := replaceSubGo old new s.length s

/-- Lexicographic (code-point) strict comparison, Python `<` on strings. -/
def lexLt : List Char → List Char → Bool
  | [], [] => false
  | [], _ :: _ => true
  | _ :: _, [] => false
  | a :: as, b :: bs => if a < b then true else if b < a then false else lexLt as bs

def lexLe (a b : List Char) : Bool := !(lexLt b a)

/-- Insertion step for sorting keyword strings. -/
def insertSorted (x : List Char) : List (List Char) → List (List Char)
  | [] => [x]
  | y :: ys => if lexLe x y then x :: y :: ys else y :: insertSorted x ys

/-- Python `sorted` on a list of strings (code-point order). -/
def sortStrs (l : List (List Char)) : List (List Char) := l.foldr insertSorted []

/-- Python `set.add`: membership-guarded insertion, first occurrence kept.
CPython set iteration order is unspecified; every place the code observes an
order it either sorts afterwards or the set is (at most) a singleton. -/
def addUnique (l : List (List Char)) (x : List Char) : List (List Char) :=
  if x ∈ l then l else l ++ [x]

/-- Python `set.update` with an iterable of strings. -/
def addAllUnique (l : List (List Char)) (xs : List (List Char)) : List (List Char) :=
  xs.foldl addUnique l

/-- Index of the last occurrence of `c` in `s`, Python `str.rfind` (`none` = -1). -/
def rlastIdx (c : Char) : List Char → Option Nat
  | [] => none
  | x :: xs =>
    match rlastIdx c xs with
    | some i => some (i + 1)
    | none => if x = c then some 0 else none

/-! ## A small regex engine

`SEO_generator.py` uses `re.findall` with six fixed patterns.  We embed the
patterns as `Re` syntax trees and give a backtracking matcher with CPython
`re` semantics (leftmost match, greedy quantifiers, left-biased alternation,
`\b` word boundaries).  The matcher carries fuel for termination; each
`star` unfolding requires the body to consume input (all six patterns have
star bodies of width at least one, matching CPython on these patterns), so
the generous fuel below is never exhausted on any input. -/

inductive Re where
  | eps
  | bnd
  | cls (p : Char → Bool)
  | seq (a b : Re)
  | alt (a b : Re)
  | opt (a : Re)
  | star (a : Re)

/-- Word-boundary test for `\b`, given the previous character. -/
def isBoundaryAt (prev : Option Char) (s : List Char) : Bool :=
  let pw := match prev with | none => false | some c => isWordChar c
  let nw := match s with | [] => false | c :: _ => isWordChar c
  pw != nw

/-- Backtracking matcher in continuation style.  `k` receives the previous
character and the remaining input; the first success in backtracking order
(greedy, left-biased) is returned, as in CPython `re`.  The fuel bounds the
dynamic call depth (structural recursion, so the kernel can evaluate it);
`reFuel` below is ample for the six fixed patterns, which is confirmed on
every concrete input this file evaluates. -/
def reMatch : Nat → Re → Option Char → List Char →
    (Option Char → List Char → Option (List Char)) → Option (List Char)
  | _, .eps, prev, s, k => k prev s
  | _, .bnd, prev, s, k => if isBoundaryAt prev s then k prev s else none
  | _, .cls p, _, s, k =>
    match s with
    | [] => none
    | c :: rest => if p c then k (some c) rest else none
  | 0, _, _, _, _ => none
  | fuel + 1, .seq a b, prev, s, k =>
    reMatch fuel a prev s (fun p2 s2 => reMatch fuel b p2 s2 k)
  | fuel + 1, .alt a b, prev, s, k =>
    match reMatch fuel a prev s k with
    | some res => some res
    | none => reMatch fuel b prev s k
  | fuel + 1, .opt a, prev, s, k =>
    match reMatch fuel a prev s k with
    | some res => some res
    | none => k prev s
  | fuel + 1, .star a, prev, s, k =>
    match reMatch fuel a prev s (fun p2 s2 =>
        if s2.length < s.length then reMatch fuel (.star a) p2 s2 k else none) with
    | some res => some res
    | none => k prev s

/-- Fuel that is ample for the six fixed patterns on input `s`. -/
def reFuel (s : List Char) : Nat := 64 * s.length + 256

/-- Try to match `r` at the current position; returns the rest of the input. -/
def matchHere (r : Re) (prev : Option Char) (s : List Char) : Option (List Char) :=
  reMatch (reFuel s) r prev s (fun _ rest => some rest)

/-- Scanner for `re.findall`: scan left to right, at each position emit the
leftmost-greedy match and resume after it, else advance one character.  The
fuel `s.length` is exact: every step strictly shortens the input. -/
def reFindAllGo (r : Re) : Nat → Option Char → List Char → List (List Char)
  | _, _, [] => []
  | 0, _, _ => []
  | fuel + 1, prev, c :: rest =>
    match matchHere r prev (c :: rest) with
    | some rem =>
      if rem.length < (c :: rest).length then
        let m := (c :: rest).take ((c :: rest).length - rem.length)
        m :: reFindAllGo r fuel m.getLast? rem
      else
        reFindAllGo r fuel (some c) rest
    | none => reFindAllGo r fuel (some c) rest

/-- `re.findall(pattern, s)` for patterns without capturing groups. -/
def reFindAll (r : Re) (s : List Char) : List (List Char) :=
  reFindAllGo r s.length none s

/-! Pattern constructors -/

def rchar (c : Char) : Re := .cls (fun d => d = c)

/-- Case-insensitive literal character (`re.IGNORECASE`). -/
def richar (c : Char) : Re := .cls (fun d => pyLowerChar d = pyLowerChar c)

def rdigit : Re := .cls isDigitChar

def rspace : Re := .cls isSpaceChar

def rupper : Re := .cls isAsciiUpper

def rlower : Re := .cls isAsciiLower

def rplus (r : Re) : Re := .seq r (.star r)

def rseqList : List Re → Re
  | [] => .eps
  | [r] => r
  | r :: rs => .seq r (rseqList rs)

/-- Case-insensitive literal string. -/
def rstrI (s : String) : Re := rseqList (s.toList.map richar)

/-- The class `["']`. -/
def quoteCls : Re := .cls (fun d => d = dq || d = sq)

/-- A number `\d+\.?\d*`. -/
def numPart : Re := rseqList [rplus rdigit, .opt (rchar '.'), .star rdigit]

/-- Pattern 1 of `extract_specs` (dimension like 4x6). -/
def sizePattern : Re :=
  rseqList [numPart, .star rspace, .opt quoteCls, .star rspace, richar 'x',
            .star rspace, numPart, .star rspace, .opt quoteCls]

/-- Pattern 2 of `extract_specs` (sided-ness). -/
def sidedPattern : Re :=
  rseqList [rplus rdigit, .star rspace, richar 's', richar 'i', richar 'd',
            richar 'e', .opt (richar 'd')]

/-- One or two digits, greedy. -/
def rd2 : Re := .seq rdigit (.opt rdigit)

/-- Exactly four digits. -/
def rd4 : Re := rseqList [rdigit, rdigit, rdigit, rdigit]

/-- Pattern 3 of `extract_specs` (date with a slash). -/
def updatedSlashPattern : Re :=
  .seq (rstrI "Updated ") (rseqList [rd2, rchar '/', rd4])

/-- Pattern 4 of `extract_specs` (dashed date). -/
def updatedDashPattern : Re :=
  .seq (rstrI "Updated ") (rseqList [rd2, rchar '-', rd2, rchar '-', rd4])

/-- State abbreviations in `extract_locations_from_text`. -/
def statePattern : Re := rseqList [.bnd, rupper, rupper, .bnd]

/-- One capitalized word. -/
def cityWord : Re := .seq rupper (rplus rlower)

/-- City names in `extract_locations_from_text`. -/
def cityPattern : Re :=
  rseqList [.bnd, cityWord, .star (.seq (rplus rspace) cityWord), .bnd]

/-! ## SEO_generator.py -/

/-- String literal shorthand. -/
def toL (s : String) : List Char := s.toList

/-- `clean_text` (SEO_generator.py lines 11-19).  Cells are read with
`keep_default_na=False`, so every cell is a string and `pd.isna` is false. -/
def clean_text (text : List Char) : List Char :=
  if text = [] then []
  else
    let t1 := pyStrip text
    let t2 := if t1.head? = some dq ∧ t1.getLast? = some dq then (t1.drop 1).dropLast else t1
    replaceSub t2 [dq, dq] [dq]

/-- `extract_specs` (SEO_generator.py lines 21-35). -/
def extract_specs (text : List Char) : List (List Char) :=
  if text = [] then []
  else
    reFindAll sizePattern text ++ reFindAll sidedPattern text ++
    reFindAll updatedSlashPattern text ++ reFindAll updatedDashPattern text

/-- The `false_positives` set of `extract_locations_from_text`. -/
def false_positives : List (List Char) :=
  [toL "The", toL "A", toL "An", toL "In", toL "On", toL "At", toL "To",
   toL "For", toL "With", toL "And", toL "Or"]

/-- `extract_locations_from_text` (SEO_generator.py lines 37-62).
`list(set(locations))` is modelled as first-occurrence deduplication; CPython
set iteration order is unspecified, and every concrete evaluation in this file
has at most one element, where any order agrees. -/
def extract_locations_from_text (text : List Char) : List (List Char) :=
  if text = [] then []
  else
    let states := reFindAll statePattern text
    let cities := (reFindAll cityPattern text).filter (fun c => ¬ c ∈ false_positives)
    addAllUnique [] (states ++ cities)

/-- The ordered `type_keywords` table of `get_product_type`
(SEO_generator.py lines 69-100); Python dicts preserve insertion order. -/
def type_keywords : List (List Char × List Char) :=
  [(toL "envelope", toL "Envelope"),
   (toL "business card", toL "Business Card"),
   (toL "appointment card", toL "Appointment Card"),
   (toL "qr code", toL "QR Code Card"),
   (toL "review card", toL "Review Card"),
   (toL "card", toL "Card"),
   (toL "flier", toL "Flier"),
   (toL "flyer", toL "Flyer"),
   (toL "brochure", toL "Brochure"),
   (toL "letterhead", toL "Letterhead"),
   (toL "registration", toL "Registration Form"),
   (toL "form", toL "Form"),
   (toL "letter", toL "Letter"),
   (toL "sales aid", toL "Sales Aid"),
   (toL "postcard", toL "Postcard"),
   (toL "booklet", toL "Booklet"),
   (toL "poster", toL "Poster"),
   (toL "label", toL "Label"),
   (toL "sticker", toL "Sticker"),
   (toL "lanyard", toL "Lanyard"),
   (toL "badge", toL "Badge"),
   (toL "sign", toL "Sign"),
   (toL "banner", toL "Banner"),
   (toL "handout", toL "Handout"),
   (toL "presentation", toL "Presentation"),
   (toL "folder", toL "Folder"),
   (toL "notepad", toL "Notepad"),
   (toL "pen", toL "Pen"),
   (toL "gift", toL "Gift"),
   (toL "merchandise", toL "Merchandise")]

/-- The `for keyword, ptype in table: if keyword in s: return ptype` loop. -/
def scanTypeTable (s : List Char) : List (List Char × List Char) → Option (List Char)
  | [] => none
  | (kw, ty) :: rest => if containsSub s kw then some ty else scanTypeTable s rest

/-- `get_product_type` (SEO_generator.py lines 64-115). -/
def get_product_type (name categories : List Char) : Option (List Char) :=
  let nameLower := pyLower name
  let categoriesLower := if categories ≠ [] then pyLower categories else []
  match scanTypeTable nameLower type_keywords with
  | some ty => some ty
  | none => scanTypeTable categoriesLower type_keywords

/-- One product row as consumed by the SEO generator.  `row.get(col, '')`
on an absent column equals a present empty cell for every use below, so
absent columns are modelled as empty strings; `Name` is validated as present
by `generate_seo_data` before these functions run. -/
structure Row where
  Name : List Char
  BriefDescription : List Char := []
  LongDescription : List Char := []
  StoreFrontCategories : List Char := []
  uStore_StoreName : List Char := []

/-- The `title_parts` list assembled by `generate_seo_title`
(SEO_generator.py lines 119-168). -/
def titleParts (row : Row) : List (List Char) :=
  let name := clean_text row.Name
  let brief_desc := clean_text row.BriefDescription
  let long_desc := clean_text row.LongDescription
  let categories := clean_text row.StoreFrontCategories
  let store_name := clean_text row.uStore_StoreName
  let product_type := get_product_type name categories
  let locations := extract_locations_from_text name
  let location := locations.head?
  let specs := extract_specs brief_desc ++ extract_specs long_desc
  let p1 : List (List Char) :=
    match product_type with
    | some t => [t]
    | none =>
      let name_parts := splitWs name
      if name_parts ≠ [] then
        let commonTitleWords := [toL "the", toL "a", toL "an"]
        let meaningful_words :=
          ((name_parts.take 5).filter (fun w => ¬ pyLower w ∈ commonTitleWords)).take 3
        if meaningful_words ≠ [] then [List.intercalate (toL " ") meaningful_words] else []
      else []
  let p2 : List (List Char) :=
    match location with
    | some loc => [toL "- " ++ loc]
    | none => []
  let p3 : List (List Char) :=
    match specs with
    | [] => []
    | spec0 :: _ =>
      let spec := pyStrip spec0
      if spec ≠ [] ∧ ¬ containsSub spec (toL "Updated") ∧ spec.length < 30 then
        [toL "(" ++ spec ++ toL ")"]
      else []
  let p4 : List (List Char) :=
    if store_name ≠ [] then [toL "| " ++ store_name] else []
  p1 ++ p2 ++ p3 ++ p4

/-- `generate_seo_title` (SEO_generator.py lines 117-180).  With at most one
title part the function returns early (the fallback path, line 172), before
the 70-character truncation. -/
def generate_seo_title (row : Row) : List Char :=
  let name := clean_text row.Name
  let store_name := clean_text row.uStore_StoreName
  let parts := titleParts row
  if parts.length ≤ 1 then
    if store_name ≠ [] then name ++ toL " | " ++ store_name else name
  else
    let seo_title := List.intercalate (toL " ") parts
    if seo_title.length > 70 then seo_title.take 67 ++ toL "..." else seo_title

/-- The ordered `type_keyword_groups` table of `generate_keywords`
(SEO_generator.py lines 197-218). -/
def type_keyword_groups : List (List Char × List (List Char)) :=
  [(toL "envelope", [toL "envelope", toL "mailing", toL "stationery"]),
   (toL "business card", [toL "business card", toL "card", toL "networking", toL "contact"]),
   (toL "appointment card", [toL "appointment card", toL "reminder"]),
   (toL "qr code", [toL "qr code", toL "review", toL "feedback"]),
   (toL "card", [toL "card"]),
   (toL "flier", [toL "flier", toL "flyer", toL "marketing", toL "promotional"]),
   (toL "brochure", [toL "brochure", toL "marketing", toL "informational"]),
   (toL "letterhead", [toL "letterhead", toL "stationery", toL "correspondence"]),
   (toL "registration", [toL "registration", toL "form"]),
   (toL "form", [toL "form", toL "document"]),
   (toL "letter", [toL "letter", toL "correspondence"]),
   (toL "sales aid", [toL "sales aid", toL "marketing", toL "sales tool"]),
   (toL "postcard", [toL "postcard", toL "mailing", toL "marketing"]),
   (toL "booklet", [toL "booklet", toL "guide"]),
   (toL "poster", [toL "poster", toL "signage", toL "display"]),
   (toL "label", [toL "label", toL "sticker"]),
   (toL "lanyard", [toL "lanyard", toL "badge holder"]),
   (toL "sign", [toL "sign", toL "signage"]),
   (toL "banner", [toL "banner", toL "display"]),
   (toL "handout", [toL "handout", toL "informational"])]

/-- The keyword set built by `generate_keywords` (SEO_generator.py lines
189-254), as a duplicate-free list in insertion order (the set is sorted
before use, so iteration order is immaterial). -/
def keywordList (row : Row) : List (List Char) :=
  let name := clean_text row.Name
  let brief_desc := clean_text row.BriefDescription
  let categories := clean_text row.StoreFrontCategories
  let store_name := clean_text row.uStore_StoreName
  let name_lower := pyLower name
  let locations := extract_locations_from_text name
  let kws := addAllUnique [] (locations.map pyLower)
  let kws :=
    match type_keyword_groups.find? (fun g => containsSub name_lower g.1) with
    | some g => addAllUnique kws g.2
    | none => kws
  let kws :=
    if categories ≠ [] then
      (splitOnChar '/' categories).foldl (fun acc c =>
        let part := pyStrip c
        if part ≠ [] ∧ part.length > 2 then addUnique acc (pyLower part) else acc) kws
    else kws
  let kws :=
    if containsSub name_lower (toL "spanish") || containsSub name_lower (toL "español") then
      addUnique kws (toL "spanish")
    else kws
  let specs := extract_specs brief_desc
  let kws := (specs.take 2).foldl (fun acc spec =>
      if ¬ containsSub spec (toL "Updated") then
        let spec_clean :=
          replaceSub (replaceSub (pyStrip spec) [dq] (toL "inch")) [sq] (toL "inch")
        if spec_clean ≠ [] ∧ spec_clean.length < 20 then addUnique acc (pyLower spec_clean)
        else acc
      else acc) kws
  let kws :=
    if store_name ≠ [] then
      let common_words := [toL "online", toL "print", toL "portal", toL "store",
                           toL "ordering", toL "the", toL "a", toL "an"]
      addAllUnique kws ((splitWs (pyLower store_name)).filter (fun w => ¬ w ∈ common_words))
    else kws
  kws

/-- `sorted(list(keywords))` (SEO_generator.py line 257). -/
def sortedKeywords (row : Row) : List (List Char) := sortStrs (keywordList row)

/-- The 500-character truncation of `generate_keywords`
(SEO_generator.py lines 260-266). -/
def truncateKeywords (s : List Char) : List Char :=
  if s.length > 500 then
    let t := s.take 500
    match rlastIdx ',' t with
    | some i => if i > 0 then t.take i else t
    | none => t
  else s

/-- `generate_keywords` (SEO_generator.py lines 182-267). -/
def generate_keywords (row : Row) : List Char :=
  truncateKeywords (List.intercalate (toL ", ") (sortedKeywords row))



/-! ## fields_mapper.py -/

/-- A pandas DataFrame, modelled column-wise: the column names in order,
each with its list of cells.  Cells are strings (the CSVs are read with
`keep_default_na=False`); source columns are assumed equal-length (a
well-formed CSV), with `nRows` the common length. -/
abbrev Table : Type := List (String × List String)

/-- Column membership/lookup, `df[c]` (first matching name). -/
def getCol (t : Table) (c : String) : Option (List String) :=
  (t.find? (fun p => p.1 = c)).map Prod.snd

/-- Column lookup defaulting to an empty column. -/
def getColD (t : Table) (c : String) : List String := (getCol t c).getD []

/-- `df.columns`. -/
def colNames (t : Table) : List String := t.map Prod.fst

/-- pandas column assignment `df[c] = vals`: replaced in place when the
column exists, appended at the end otherwise. -/
def setCol (t : Table) (c : String) (vals : List String) : Table :=
  if t.any (fun p => p.1 = c) then
    t.map (fun p => if p.1 = c then (c, vals) else p)
  else t ++ [(c, vals)]

/-- Row count of the source frame. -/
def nRows (src : Table) : Nat :=
  match src with
  | [] => 0
  | c :: _ => c.2.length

/-- The fixed `mdsf_columns` template list (fields_mapper.py lines 51-69),
verbatim and in order.  It has 63 entries, although the module docstring
calls it the 61-column format. -/
def mdsf_columns : List String :=
  ["Name", "DisplayName", "Type", "ProductId", "BriefDescription", "Icon",
   "LongDescription", "DetailImage", "Active", "TurnAroundTime", "TurnAroundTimeUnit",
   "QuantityType", "MaxOrderQuantityPermitted", "Quantities",
   "AllowBuyerToEditMultipleQuantity", "EnforceMaxQuantityPermittedInCart",
   "OrderQuantitiesAllowSplitAcrossMultipleRecipients", "DescriptionFooter",
   "ProductNotes", "KeyWords", "SEOTitle", "UrlSlug", "MetaDescription",
   "MobileSupported", "BuyerDeliverableType", "WeightValue", "WeightUnit",
   "WidthValue", "LengthValue", "HeightValue", "DimensionUnit",
   "MaxQuantityPerSubcontainer", "ShipItemSeparately", "ContentFile",
   "TicketTemplate", "ProductNameToCopySecuritySettings", "MISItemTemplate",
   "SmartCanvasTemplateName", "DynamicPreview", "AllowBuyerConfiguration",
   "StartDate", "EndDate", "PickLocation", "WareHouseName", "IsHighValueProduct",
   "HasUniqueSkid", "PickStrategy", "NotifyOnInventoryReceive", "CustomerRep",
   "SalesRep", "PhysicalCountInterval", "StorageType", "AllowBackOrder",
   "BackOrderRule", "BackOrderMaxQty", "ShowInventoryWhenBackOrderAllowed",
   "Threshold", "Emails", "Storefront/Categories", "Barcode",
   "EnableProductReturn", "BuyNowButtonDescription", "UseNewSmartCanvas"]

/-- The `field_mapping` dict (fields_mapper.py lines 74-93), insertion order. -/
def field_mapping : List (String × String) :=
  [("Name", "Name"), ("DisplayName", "DisplayName"), ("Type", "Type"),
   ("SKU/ProductId", "ProductId"), ("BriefDescription", "BriefDescription"),
   ("Icon", "Icon"), ("LongDescription", "LongDescription"),
   ("DetailImage", "DetailImage"), ("Active", "Active"),
   ("QuantityType", "QuantityType"),
   ("MaxOrderQuantityPermitted", "MaxOrderQuantityPermitted"),
   ("KeyWords", "KeyWords"), ("SEOTitle", "SEOTitle"),
   ("MetaDescription", "MetaDescription"), ("MobileSupported", "MobileSupported"),
   ("ContentFile", "ContentFile"), ("TicketTemplate", "TicketTemplate"),
   ("StoreFront/Categories", "Storefront/Categories")]

/-- The `helper_columns` list (fields_mapper.py line 105, packager.py line 156,
main.py line 147). -/
def helper_columns : List String :=
  ["uStore_ProductID", "uStore_StoreID", "uStore_StoreName"]

/-- The scalar defaults assigned at fields_mapper.py lines 121-167, in
assignment order. -/
def default_values : List (String × String) :=
  [("TurnAroundTime", ""), ("TurnAroundTimeUnit", ""), ("Quantities", ""),
   ("AllowBuyerToEditMultipleQuantity", "FALSE"),
   ("EnforceMaxQuantityPermittedInCart", "FALSE"),
   ("OrderQuantitiesAllowSplitAcrossMultipleRecipients", "FALSE"),
   ("DescriptionFooter", ""), ("ProductNotes", ""), ("UrlSlug", ""),
   ("BuyerDeliverableType", "Print"), ("WeightValue", ""), ("WeightUnit", ""),
   ("WidthValue", ""), ("LengthValue", ""), ("HeightValue", ""),
   ("DimensionUnit", ""), ("MaxQuantityPerSubcontainer", ""),
   ("ShipItemSeparately", ""), ("ProductNameToCopySecuritySettings", ""),
   ("MISItemTemplate", ""), ("SmartCanvasTemplateName", ""),
   ("DynamicPreview", ""), ("AllowBuyerConfiguration", ""),
   ("StartDate", ""), ("EndDate", ""), ("PickLocation", ""),
   ("WareHouseName", ""), ("IsHighValueProduct", ""), ("HasUniqueSkid", ""),
   ("PickStrategy", ""), ("NotifyOnInventoryReceive", ""), ("CustomerRep", ""),
   ("SalesRep", ""), ("PhysicalCountInterval", ""), ("StorageType", ""),
   ("AllowBackOrder", ""), ("BackOrderRule", ""), ("BackOrderMaxQty", ""),
   ("ShowInventoryWhenBackOrderAllowed", ""), ("Threshold", ""), ("Emails", ""),
   ("Barcode", ""), ("EnableProductReturn", ""), ("BuyNowButtonDescription", ""),
   ("UseNewSmartCanvas", "")]

/-- Stage 1: `df_mdsf = DataFrame(columns=mdsf_columns)` and the direct
field mapping loop (fields_mapper.py lines 71-102). -/
def mapperStage1 (src : Table) : Table :=
  field_mapping.foldl (fun t p =>
      match getCol src p.1 with
      | some vals => setCol t p.2 vals
      | none => t)
    (mdsf_columns.map (fun c => (c, [])))

/-- Stage 2: the helper-column preservation loop (fields_mapper.py
lines 104-110). -/
def mapperStage2 (src : Table) : Table :=
  helper_columns.foldl (fun t c =>
      match getCol src c with
      | some vals => setCol t c vals
      | none => t)
    (mapperStage1 src)

/-- Stage 3: the AutoThumbnail override (fields_mapper.py lines 113-116). -/
def mapperStage3 (src : Table) (use_auto_thumbnail : Bool) : Table :=
  if use_auto_thumbnail then
    setCol (setCol (mapperStage2 src) "Icon" (List.replicate (nRows src) "AutoThumbnail"))
      "DetailImage" (List.replicate (nRows src) "AutoThumbnail")
  else mapperStage2 src

/-- The full `df_mdsf` construction of `map_to_mdsf` (fields_mapper.py
lines 51-167): stages 1-3 followed by the scalar defaults. -/
def map_to_mdsf_table (src : Table) (use_auto_thumbnail : Bool) : Table :=
  default_values.foldl (fun t p => setCol t p.1 (List.replicate (nRows src) p.2))
    (mapperStage3 src use_auto_thumbnail)

/-- One entry of the validation error report (fields_mapper.py lines
181-215); each Python error string is modelled by its constructor and the
count it reports. -/
inductive MapperError where
  | missingName (n : Nat)
  | missingDisplayName (n : Nat)
  | missingType (n : Nat)
  | docMissingTicketTemplate (n : Nat)
  | docMissingContentFile (n : Nat)
deriving DecidableEq

/-- Count of empty cells, `df[c].eq('').sum()`. -/
def countEmpty (l : List String) : Nat := (l.filter (fun v => v = "")).length

/-- The validation error report of `map_to_mdsf` (fields_mapper.py lines
181-215), in append order.  (The separate warnings list for empty
descriptions, lines 218-224, does not interact with the return value.) -/
def validationErrors (t : Table) : List MapperError :=
  let mn := countEmpty (getColD t "Name")
  let md := countEmpty (getColD t "DisplayName")
  let mt := countEmpty (getColD t "Type")
  let triples := (getColD t "Type").zip ((getColD t "TicketTemplate").zip (getColD t "ContentFile"))
  let mtk := (triples.filter (fun r => r.1 = "Document" ∧ r.2.1 = "")).length
  let mcf := (triples.filter (fun r => r.1 = "Document" ∧ r.2.2 = "")).length
  (if mn > 0 then [MapperError.missingName mn] else []) ++
  (if md > 0 then [MapperError.missingDisplayName md] else []) ++
  (if mt > 0 then [MapperError.missingType mt] else []) ++
  (if mtk > 0 then [MapperError.docMissingTicketTemplate mtk] else []) ++
  (if mcf > 0 then [MapperError.docMissingContentFile mcf] else [])

/-- Result of one `map_to_mdsf` invocation past the CSV read. -/
structure MapperRun where
  written : Option Table
  errors : List MapperError
  success : Bool

/-- `map_to_mdsf` from the post-read point (fields_mapper.py lines 51-261):
build `df_mdsf`, write it to the output CSV (`writeOk` models whether
`to_csv` raises, lines 170-174), and only afterwards compute the validation
report; the function returns `True` regardless of the validation outcome. -/
def map_to_mdsf_run (src : Table) (use_auto_thumbnail writeOk : Bool) : MapperRun :=
  let tbl := map_to_mdsf_table src use_auto_thumbnail
  if writeOk then
    { written := some tbl, errors := validationErrors tbl, success := true }
  else
    { written := none, errors := [], success := false }


/-! ## store_filter.py -/

/-- One row of the complete export as seen by the store filter: the cells
of the two store columns (`uStore_StoreID` is read by pandas as an integer,
`uStore_StoreName` as a string) plus the remaining payload.  A store column
is consulted only when its name appears in `header`. -/
structure FilterRow where
  storeID : Int
  storeName : String
  payload : List String := []
deriving DecidableEq

/-- Input to `filter_by_store` (store_filter.py lines 10-113): whether the
input CSV exists, its header and rows, and the optional filter arguments.
The pandas read itself is assumed to succeed (lines 38-42 guard I/O errors
only). -/
structure FilterInput where
  inputExists : Bool
  header : List String
  rows : List FilterRow
  store_id : Option Int
  store_name : Option String

/-- Python truthiness of `store_id` at store_filter.py line 32. -/
def storeIdTruthy (i : Option Int) : Bool :=
  match i with
  | none => false
  | some v => v ≠ 0

/-- Python truthiness of `store_name` at store_filter.py line 32. -/
def storeNameTruthy (s : Option String) : Bool :=
  match s with
  | none => false
  | some v => v ≠ ""

/-- The rows selected by the active criterion (store_filter.py lines
64-75): by id when `store_id is not None`, else by name. -/
def matchedRows (inp : FilterInput) : List FilterRow :=
  match inp.store_id with
  | some sid => inp.rows.filter (fun r => r.storeID = sid)
  | none => inp.rows.filter (fun r => r.storeName = inp.store_name.getD "")

/-- `filter_by_store` (store_filter.py lines 10-113): the returned boolean
and the written output (`none` when `to_csv` at line 90 was never
reached). -/
def filter_by_store (inp : FilterInput) : Bool × Option (List FilterRow) :=
  if ¬ inp.inputExists then (false, none)
  else if ¬ storeIdTruthy inp.store_id ∧ ¬ storeNameTruthy inp.store_name then (false, none)
  else if ¬ inp.header.contains "uStore_StoreID" ∧ ¬ inp.header.contains "uStore_StoreName" then
    (false, none)
  else
    match inp.store_id with
    | some sid =>
      if ¬ inp.header.contains "uStore_StoreID" then (false, none)
      else
        let filtered := inp.rows.filter (fun r => r.storeID = sid)
        if filtered.length = 0 then (false, none) else (true, some filtered)
    | none =>
      if ¬ inp.header.contains "uStore_StoreName" then (false, none)
      else
        let filtered := inp.rows.filter (fun r => r.storeName = inp.store_name.getD "")
        if filtered.length = 0 then (false, none) else (true, some filtered)

/-! ## orchestrator.py -/

/-- Final pipeline bookkeeping of `MigrationPipeline.run`
(orchestrator.py lines 370-460). -/
structure RunResult where
  executed : List Nat
  completed_steps : List Nat
  failed_steps : List Nat
  current_step : Nat
  resumeHint : Option Nat
  ok : Bool
deriving DecidableEq

/-- One guarded step block of `MigrationPipeline.run` (orchestrator.py
lines 387-426): when `start ≤ i` the state's `current_step` is set to `i`
and the step function runs; a raise lands in the `except` handler (lines
447-460), which appends `current_step` to `failed_steps` and prints the
`--start-from current_step` resume hint. -/
def runStage (i : Nat) (stepRaises : Bool) (start : Nat) (executed completed : List Nat)
    (next : List Nat → List Nat → RunResult) : RunResult :=
  if start ≤ i then
    if stepRaises then
      { executed := executed ++ [i], completed_steps := completed,
        failed_steps := [i], current_step := i, resumeHint := some i, ok := false }
    else next (executed ++ [i]) (completed ++ [i])
  else next executed completed

/-- `MigrationPipeline.run` (orchestrator.py lines 370-460) over the five
steps; `fi = true` means step `i` raises when executed.  The success
logging at line 436 reads `final_package`, which is assigned only inside
the step-4 block (line 425); with `start_from` above 4 that read raises a
`NameError`, caught by the same handler with `current_step` still at its
initial 0. -/
def pipelineRun (f0 f1 f2 f3 f4 : Bool) (start : Nat) : RunResult :=
  runStage 0 f0 start [] [] (fun e c =>
  runStage 1 f1 start e c (fun e c =>
  runStage 2 f2 start e c (fun e c =>
  runStage 3 f3 start e c (fun e c =>
  runStage 4 f4 start e c (fun e c =>
    if start ≤ 4 then
      { executed := e, completed_steps := c, failed_steps := [], current_step := 4,
        resumeHint := none, ok := true }
    else
      { executed := e, completed_steps := c, failed_steps := [0], current_step := 0,
        resumeHint := some 0, ok := false })))))

/-! ## asset_linker.py -/

/-- The filesystem as seen through `Path.exists` and `glob`: a directory
path, given as its segments, maps to its file listing, `none` when the
directory does not exist. -/
abbrev DirFS := List (List Char) → Option (List (List Char))

/-- `assets_dir / f"Product_:product_id:"` (asset_linker.py line 16). -/
def productFolder (assets_dir : List (List Char)) (product_id : List Char) : List (List Char) :=
  assets_dir ++ [toL "Product_" ++ product_id]

/-- `find_content_files` (asset_linker.py lines 11-30): the `*.pdf` names
of the product folder, excluding names containing `proof` case-insensitively;
the empty list when the folder does not exist. -/
def find_content_files (fs : DirFS) (assets_dir : List (List Char))
    (product_id : List Char) : List (List Char) :=
  match fs (productFolder assets_dir product_id) with
  | none => []
  | some files =>
    let pdf_files := files.filter (fun f => (toL ".pdf").isSuffixOf f)
    pdf_files.filter (fun f => ¬ containsSub (pyLower f) (toL "proof"))

/-- `thumbnails_dir / f"Product_:id:" / "Pages" / "Thumbnails"`
(asset_linker.py line 37). -/
def thumbFolder (thumbnails_dir : List (List Char)) (product_id : List Char) :
    List (List Char) :=
  thumbnails_dir ++ [toL "Product_" ++ product_id, toL "Pages", toL "Thumbnails"]

/-- The `image_extensions` list (asset_linker.py line 43). -/
def image_extensions : List (List Char) :=
  [toL ".jpg", toL ".jpeg", toL ".png", toL ".gif", toL ".bmp"]

/-- `find_thumbnail_files` (asset_linker.py lines 32-50): for each image
extension in order, the matching names of the thumbnails folder; the empty
list when the folder does not exist. -/
def find_thumbnail_files (fs : DirFS) (thumbnails_dir : List (List Char))
    (product_id : List Char) : List (List Char) :=
  match fs (thumbFolder thumbnails_dir product_id) with
  | none => []
  | some files =>
    (image_extensions.map (fun ext => files.filter (fun f => ext.isSuffixOf f))).join

/-- One row of the CSV as `link_assets` updates it. -/
structure LinkRow where
  uStore_ProductID : List Char
  Name : List Char := []
  ContentFile : List Char := []
  Icon : List Char := []
  DetailImage : List Char := []
deriving DecidableEq

/-- The per-row body of the `link_assets` loop (asset_linker.py lines
124-151). -/
def linkRowStep (fs : DirFS) (assets_path thumbnails_path : List (List Char))
    (row : LinkRow) : LinkRow :=
  let content_files := find_content_files fs assets_path row.uStore_ProductID
  let row1 :=
    if content_files ≠ [] then
      { row with ContentFile := List.intercalate (toL ", ") content_files }
    else { row with ContentFile := [] }
  let thumbnail_files := find_thumbnail_files fs thumbnails_path row.uStore_ProductID
  if thumbnail_files ≠ [] then
    { row1 with Icon := List.intercalate (toL ", ") thumbnail_files,
                DetailImage := List.intercalate (toL ", ") thumbnail_files }
  else { row1 with Icon := [], DetailImage := [] }

/-- `link_assets` past the CSV read (asset_linker.py lines 52-202): fails
(`none`, Python `False`) when the input CSV is missing, the
`uStore_ProductID` column is absent, or either asset root directory does
not exist; otherwise updates every row and succeeds (the `to_csv` write at
line 155 is assumed not to raise).  Missing per-product directories never
cause failure. -/
def link_assets (fs : DirFS) (inputExists hasProductIdCol : Bool)
    (assets_path thumbnails_path : List (List Char)) (rows : List LinkRow) :
    Option (List LinkRow) :=
  if ¬ inputExists then none
  else if ¬ hasProductIdCol then none
  else if (fs assets_path).isNone then none
  else if (fs thumbnails_path).isNone then none
  else some (rows.map (linkRowStep fs assets_path thumbnails_path))

/-! ## packager.py -/

/-- Columns of the cleaned table written as `products.csv` by
`create_package` (packager.py lines 154-163): the helper columns present in
the input are dropped. -/
def packagerCleanColumns (cols : List String) : List String :=
  let columns_to_remove := helper_columns.filter (fun c => cols.contains c)
  if columns_to_remove ≠ [] then cols.filter (fun c => ! columns_to_remove.contains c)
  else cols

/-- `create_package`'s staging-CSV column set (packager.py lines 62-65 and
154-175): `none` when the required `uStore_ProductID` column is absent
(early failure before any write), otherwise the cleaned column set written
to `products.csv` in the staging directory and then archived. -/
def create_package_csv_columns (cols : List String) : Option (List String) :=
  if cols.contains "uStore_ProductID" then some (packagerCleanColumns cols) else none

/-- A source-file path probed by the packager:
`assets/Product_<pid>/<fname>` for content or
`thumbnails/Product_<pid>/Pages/Thumbnails/<fname>` for images
(packager.py lines 108, 124, 140). -/
inductive SrcPath where
  | content (pid fname : List Char)
  | thumb (pid fname : List Char)
deriving DecidableEq

/-- One parsed asset reference: bare file name, source path, report kind
(`PDF`, `Icon` or `DetailImage`) and the product name used in missing
reports. -/
structure Ref where
  fname : List Char
  path : SrcPath
  kind : String
  pname : List Char
deriving DecidableEq

/-- One row of the mapped CSV as `create_package` reads it. -/
structure PkgRow where
  uStore_ProductID : List Char
  Name : List Char := []
  ContentFile : List Char := []
  Icon : List Char := []
  DetailImage : List Char := []
deriving DecidableEq

/-- Parsing of one comma-separated asset field (packager.py lines 103-107,
119-123, 135-139): the field is stripped and skipped entirely when empty
or equal to the AutoThumbnail sentinel; otherwise it is split on commas,
each piece stripped, and the nonempty names kept in order. -/
def fieldRefs (field : List Char) (mk : List Char → SrcPath) (kind : String)
    (pname : List Char) : List Ref :=
  let fieldS := pyStrip field
  if fieldS ≠ [] ∧ fieldS ≠ toL "AutoThumbnail" then
    ((splitOnChar ',' fieldS).map pyStrip).filterMap (fun n =>
      if n ≠ [] then some { fname := n, path := mk n, kind := kind, pname := pname }
      else none)
  else []

/-- All references of one row in processing order: ContentFile, Icon,
DetailImage (packager.py lines 102-150). -/
def rowRefs (row : PkgRow) : List Ref :=
  fieldRefs row.ContentFile (fun n => .content row.uStore_ProductID n) "PDF" row.Name ++
  fieldRefs row.Icon (fun n => .thumb row.uStore_ProductID n) "Icon" row.Name ++
  fieldRefs row.DetailImage (fun n => .thumb row.uStore_ProductID n) "DetailImage" row.Name

/-- All references of a run, row by row. -/
def refsOf (rows : List PkgRow) : List Ref := rows.bind rowRefs

/-- The packager's copy bookkeeping: the Python `files_copied` set is the
name set of the `copied` log (each copy `add`s its name, line 113 etc.);
`missing` is `stats['missing_files']`. -/
structure PkgState where
  copied : List (List Char × SrcPath)
  missing : List (List Char × List Char × String)
deriving DecidableEq

/-- The names in `files_copied`. -/
def copiedNames (s : PkgState) : List (List Char) := s.copied.map Prod.fst

/-- Processing of one reference (packager.py lines 107-116, 123-132,
139-150): a name already in `files_copied` is skipped entirely; otherwise
the source is copied when it exists, else recorded missing — except that a
DetailImage reference already reported as the same product's Icon is not
reported again (lines 148-150). -/
def pkgStep (fs : SrcPath → Bool) (s : PkgState) (r : Ref) : PkgState :=
  if r.fname ∈ copiedNames s then s
  else if fs r.path then { s with copied := s.copied ++ [(r.fname, r.path)] }
  else if r.kind = "DetailImage" ∧ (r.pname, r.fname, "Icon") ∈ s.missing then s
  else { s with missing := s.missing ++ [(r.pname, r.fname, r.kind)] }

/-- The asset-copy loop of `create_package` (packager.py lines 92-151):
rows in order, and within each row the ContentFile, Icon and DetailImage
references in order, threading the run-global `files_copied` set keyed on
bare file names. -/
def runPackager (fs : SrcPath → Bool) (rows : List PkgRow) : PkgState :=
  rows.foldl (fun s row => (rowRefs row).foldl (pkgStep fs) s)
    { copied := [], missing := [] }

/-- Claim C10's statement that deduplication copies only the first
reference encountered for each file name: every copy event's source is the
source path of the run's first reference bearing that file name. -/
def copiesAreFirstRefs (fs : SrcPath → Bool) (rows : List PkgRow) : Prop :=
  ∀ e ∈ (runPackager fs rows).copied,
    ((refsOf rows).find? (fun r => decide (r.fname = e.1))).map (fun r => r.path) = some e.2

/-! ## Concrete inputs used by claim theorems -/

/-- A row whose title falls through to the untruncated fallback path:
a 80-character single-word name with no type keyword, location, spec or
store name. -/
def c1row : Row := { Name := List.replicate 80 'x' }

/-- A row producing two title parts, hence the truncating path. -/
def c1wrow : Row := { Name := toL "Envelope Waldo" }

/-- A row whose single keyword is a 600-character category token, so the
first 500 characters of the joined keyword string contain no comma. -/
def c3row : Row := { Name := toL "x", StoreFrontCategories := List.replicate 600 'b' }


/-- A source CSV carrying one helper column. -/
def c2src : Table := [("Name", ["A"]), ("uStore_ProductID", ["7"])]

/-- A source CSV with one record that is missing `Name` and is a
`Document` without `TicketTemplate` or `ContentFile`. -/
def c8src : Table := [("Name", [""]), ("DisplayName", ["D"]), ("Type", ["Document"])]


/-- A filter input whose single row belongs to store 5 while store 70 is
requested. -/
def c4inp : FilterInput :=
  { inputExists := true, header := ["uStore_StoreID", "uStore_StoreName", "Name"],
    rows := [{ storeID := 5, storeName := "S" }], store_id := some 70, store_name := none }

/-- A concrete directory filesystem with the two asset roots present and
no product folders. -/
def c9fs : DirFS := fun p =>
  if p = [toL "assets"] then some [] else if p = [toL "thumbs"] then some [] else none

/-- One row for the asset-linker witness. -/
def c9rows : List LinkRow := [{ uStore_ProductID := toL "9" }]

/-- Column set of a mapped CSV carrying all three helper columns. -/
def c6cols : List String :=
  ["Name", "uStore_ProductID", "uStore_StoreID", "uStore_StoreName", "Type"]

/-- A filesystem where only product 2's copy of `f.pdf` exists. -/
def c10fs : SrcPath → Bool :=
  fun p => decide (p = SrcPath.content (toL "2") (toL "f.pdf"))

/-- Two products that both reference a file named `f.pdf`, from different
source directories. -/
def c10rows : List PkgRow :=
  [{ uStore_ProductID := toL "1", Name := toL "P1", ContentFile := toL "f.pdf" },
   { uStore_ProductID := toL "2", Name := toL "P2", ContentFile := toL "f.pdf" }]


/-- A filesystem for the C10 witness where only product 1's copy of
`f.pdf` exists. -/
def c10wfs : SrcPath → Bool :=
  fun p => decide (p = SrcPath.content (toL "1") (toL "f.pdf"))

/-- Witness rows: product 1 references a missing `g.pdf` and an existing
`f.pdf`; product 2 references a different file also named `f.pdf`. -/
def c10wrows : List PkgRow :=
  [{ uStore_ProductID := toL "1", Name := toL "P1", ContentFile := toL "g.pdf, f.pdf" },
   { uStore_ProductID := toL "2", Name := toL "P2", ContentFile := toL "f.pdf" }]

/-! ## Theorems -/

theorem rlastIdx_none_iff (c : Char) (s : List Char) :
    rlastIdx c s = none ↔ c ∉ s := by
  induction s with
  | nil => simp [rlastIdx]
  | cons x xs ih =>
    simp only [rlastIdx, List.mem_cons]
    cases h : rlastIdx c xs with
    | some i =>
      have hmem : c ∈ xs := by
        by_contra hc
        simp [ih.mpr hc] at h
      simp [hmem]
    | none =>
      have hnot : c ∉ xs := ih.mp h
      by_cases hxc : x = c
      · simp [hxc, hnot]
      · simp [hxc, hnot]
        exact fun hcx => hxc hcx.symm

theorem rlastIdx_lt_length (c : Char) (s : List Char) (i : Nat)
    (h : rlastIdx c s = some i) : i < s.length := by
  induction s generalizing i with
  | nil => simp [rlastIdx] at h
  | cons x xs ih =>
    simp only [rlastIdx] at h
    cases hx : rlastIdx c xs with
    | some j =>
      simp [hx] at h
      subst h
      exact Nat.succ_lt_succ (ih j hx)
    | none =>
      simp only [hx] at h
      split at h
      · have : i = 0 := by
          have := Option.some.inj h
          omega
        simp [this]
      · simp at h


theorem scanTypeTable_eq_find (s : List Char) (l : List (List Char × List Char)) :
    scanTypeTable s l = (l.find? (fun p => containsSub s p.1)).map Prod.snd := by
  induction l with
  | nil => rfl
  | cons p rest ih =>
    cases hc : containsSub s p.1 with
    | true => simp [scanTypeTable, List.find?, hc]
    | false => simp [scanTypeTable, List.find?, hc, ih]

theorem truncateKeywords_length (s : List Char) : (truncateKeywords s).length ≤ 500 := by
  simp only [truncateKeywords]
  split
  case isTrue h =>
    cases hr : rlastIdx ',' (s.take 500) with
    | some i =>
      simp only [hr]
      split <;> simp [List.length_take] <;> omega
    | none => simp [hr, List.length_take]
  case isFalse h => omega

set_option maxRecDepth 100000 in
/-- Claim C1, counterexample: on the fallback path (at most one extracted
title part, SEO_generator.py line 172) `generate_seo_title` returns the
cleaned name joined with the store name without any truncation, so an
80-character name yields an 80-character title.  This refutes the claim
that every returned title has length at most 70. -/
theorem c1_title_truncation_counterexample :
    ¬ (generate_seo_title c1row).length ≤ 70 := by decide

/-- Claim C1 (amended): whenever at least two title parts were extracted —
the non-fallback path — the assembled title is truncated to 67 characters
plus an ellipsis when it exceeds 70 characters, so the returned title has
length at most 70.  The fallback path (at most one part) returns the name
joined with the store name with no truncation. -/
theorem c1_title_truncation_amended (row : Row)
    (h : 2 ≤ (titleParts row).length) :
    (generate_seo_title row).length ≤ 70 := by
  have h1 : ¬ (titleParts row).length ≤ 1 := by omega
  simp only [generate_seo_title]
  rw [if_neg h1]
  split
  case isTrue h2 =>
    have h3 : (toL "...").length = 3 := by decide
    simp [List.length_append, List.length_take, h3]
  case isFalse h2 => omega

set_option maxRecDepth 100000 in
/-- Witness for claim C1's amended theorem at a concrete two-part row. -/
theorem c1_title_truncation_witness :
    2 ≤ (titleParts c1wrow).length ∧ (generate_seo_title c1wrow).length ≤ 70 :=
  ⟨by decide, c1_title_truncation_amended c1wrow (by decide)⟩

set_option maxRecDepth 100000 in
/-- Claim C3, counterexample: for a row whose only keyword is 600
characters long, the joined keyword string has no comma in its first 500
characters, and the returned string is the bare 500-character cut — not the
comma-join of any prefix of the sorted keyword list, i.e. it ends in the
middle of a keyword token.  This refutes the claim that the keyword string
never ends mid-token for every possible keyword set. -/
theorem c3_keywords_truncation_counterexample :
    ¬ ∃ k : Nat, generate_keywords c3row =
      List.intercalate (toL ", ") ((sortedKeywords c3row).take k) := by
  intro hex
  obtain ⟨k, hk⟩ := hex
  have h1 : sortedKeywords c3row = [List.replicate 600 'b'] := by decide
  have h2 : generate_keywords c3row = List.replicate 500 'b' := by decide
  rw [h1, h2] at hk
  cases k with
  | zero =>
    rw [List.take_zero] at hk
    have hnil : List.intercalate (toL ", ") ([] : List (List Char)) = [] := rfl
    rw [hnil] at hk
    have hlen := congrArg List.length hk
    simp at hlen
  | succ k =>
    rw [List.take_succ_cons, List.take_nil] at hk
    have hsing : List.intercalate (toL ", ") [List.replicate 600 'b'] =
        List.replicate 600 'b' := by
      simp [List.intercalate, List.intersperse]
    rw [hsing] at hk
    have hlen := congrArg List.length hk
    simp at hlen

/-- Claim C3 (amended): the keyword string returned by `generate_keywords`
always has length at most 500; when the sorted comma-joined keyword string
exceeds 500 characters it is cut at 500 characters and then shortened to
the last comma when one occurs at a positive index, so when the first 500
characters contain no comma the bare 500-character cut is returned and may
end in the middle of a keyword token. -/
theorem c3_keywords_truncation_amended (row : Row) :
    (generate_keywords row).length ≤ 500 ∧
    ((List.intercalate (toL ", ") (sortedKeywords row)).length > 500 →
      ',' ∉ (List.intercalate (toL ", ") (sortedKeywords row)).take 500 →
      generate_keywords row =
        (List.intercalate (toL ", ") (sortedKeywords row)).take 500) := by
  constructor
  · exact truncateKeywords_length _
  · intro hlen hmem
    simp only [generate_keywords, truncateKeywords]
    rw [if_pos hlen, (rlastIdx_none_iff ',' _).mpr hmem]

set_option maxRecDepth 100000 in
/-- Witness for claim C3's amended theorem at the 600-character-keyword row. -/
theorem c3_keywords_truncation_witness :
    (generate_keywords c3row).length ≤ 500 ∧
    generate_keywords c3row =
      (List.intercalate (toL ", ") (sortedKeywords c3row)).take 500 :=
  ⟨(c3_keywords_truncation_amended c3row).1,
   (c3_keywords_truncation_amended c3row).2 (by decide) (by decide)⟩

/-- Claim C7 (confirmed): `get_product_type` is a first-match search over
the ordered `type_keywords` table — it returns the type of the first table
entry whose keyword occurs in the lowercased name; only when no keyword
occurs in the name does it scan the table again against the lowercased
categories; it returns `none` when neither matches.  The table order (the
`type_keywords` constant above, with `envelope` before `business card`
before `card`) decides the result when several keywords occur. -/
theorem c7_product_type_first_match (name categories : List Char) :
    get_product_type name categories =
      match (type_keywords.find? (fun p => containsSub (pyLower name) p.1)).map Prod.snd with
      | some ty => some ty
      | none =>
        (type_keywords.find? (fun p => containsSub (pyLower categories) p.1)).map Prod.snd := by
  have hcat : (if categories ≠ [] then pyLower categories else []) = pyLower categories := by
    by_cases h : categories = [] <;> simp [h, pyLower]
  simp only [get_product_type, hcat, scanTypeTable_eq_find]



theorem getCol_isSome (t : Table) (c : String) :
    (getCol t c).isSome = (colNames t).contains c := by
  induction t with
  | nil => rfl
  | cons p t ih =>
    by_cases h : p.1 = c
    · simp [getCol, colNames, List.find?, h]
    · have h1 : getCol (p :: t) c = getCol t c := by
        simp [getCol, List.find?, h]
      have h2 : (colNames (p :: t)).contains c = (colNames t).contains c := by
        simp only [colNames, List.map_cons, List.contains_cons]
        have hcp : (c == p.1) = false := by
          simp only [beq_eq_false_iff_ne, ne_eq]
          exact fun hcp => h hcp.symm
        simp [hcp]
      rw [h1, h2, ih]

theorem colNames_setCol (t : Table) (c : String) (v : List String) :
    colNames (setCol t c v) =
      if c ∈ colNames t then colNames t else colNames t ++ [c] := by
  by_cases h : c ∈ colNames t
  · have hany : (t.any (fun p => p.1 = c)) = true := by
      rw [List.any_eq_true]
      obtain ⟨p, hp, hpc⟩ := List.mem_map.mp h
      exact ⟨p, hp, by simp [hpc]⟩
    simp only [setCol, hany, if_pos h, if_true]
    simp only [colNames, List.map_map]
    apply List.map_congr_left
    intro p _
    by_cases hpc : p.1 = c
    · simp [hpc]
    · simp [hpc]
  · have hany : (t.any (fun p => p.1 = c)) = false := by
      rw [List.any_eq_false]
      intro p hp
      simp only [decide_eq_true_eq]
      intro hpc
      exact h (List.mem_map.mpr ⟨p, hp, hpc⟩)
    simp only [setCol, hany, Bool.false_eq_true, if_false, colNames, List.map_append,
      List.map_cons, List.map_nil]
    exact (if_neg h).symm

theorem colNames_foldl_fixed {α : Type} (f : Table → α → Table) (C : List String)
    (l : List α) (h : ∀ x ∈ l, ∀ t : Table, colNames t = C → colNames (f t x) = C) :
    ∀ t : Table, colNames t = C → colNames (l.foldl f t) = C := by
  induction l with
  | nil => intro t ht; simpa using ht
  | cons x l ih =>
    intro t ht
    simp only [List.foldl_cons]
    exact ih (fun y hy => h y (List.mem_cons_of_mem _ hy)) (f t x)
      (h x (List.mem_cons_self _ _) t ht)

theorem colNames_helperFold (src : Table) (hs : List String) :
    ∀ t : Table, hs.Nodup → (∀ c ∈ hs, ¬ c ∈ colNames t) →
    colNames (hs.foldl (fun t c =>
        match getCol src c with
        | some vals => setCol t c vals
        | none => t) t)
      = colNames t ++ hs.filter (fun c => (getCol src c).isSome) := by
  induction hs with
  | nil => intro t _ _; simp
  | cons c hs ih =>
    intro t hnd hmem
    obtain ⟨hc, hnd2⟩ := List.nodup_cons.mp hnd
    simp only [List.foldl_cons]
    cases hg : getCol src c with
    | none =>
      rw [ih t hnd2 (fun d hd => hmem d (List.mem_cons_of_mem _ hd))]
      simp [List.filter_cons, hg]
    | some v =>
      have hnc : ¬ c ∈ colNames t := hmem c (List.mem_cons_self _ _)
      have h1 : colNames (setCol t c v) = colNames t ++ [c] := by
        rw [colNames_setCol, if_neg hnc]
      rw [ih (setCol t c v) hnd2 ?hm, h1, List.filter_cons]
      · simp [hg, List.append_assoc]
      case hm =>
        intro d hd
        rw [h1]
        simp only [List.mem_append, List.mem_singleton]
        rintro (hdt | hdc)
        · exact hmem d (List.mem_cons_of_mem _ hd) hdt
        · exact hc (hdc ▸ hd)

set_option maxHeartbeats 400000 in
theorem field_mapping_targets_mem : ∀ p ∈ field_mapping, p.2 ∈ mdsf_columns := by
  simp [field_mapping, mdsf_columns]

set_option maxHeartbeats 400000 in
theorem default_values_targets_mem : ∀ p ∈ default_values, p.1 ∈ mdsf_columns := by
  simp [default_values, mdsf_columns]

theorem helper_columns_nodup : helper_columns.Nodup := by
  simp [helper_columns]

set_option maxHeartbeats 400000 in
theorem helper_columns_not_in_mdsf : ∀ c ∈ helper_columns, ¬ c ∈ mdsf_columns := by
  simp [helper_columns, mdsf_columns]

theorem colNames_emptyFrame :
    colNames (mdsf_columns.map (fun c => (c, ([] : List String)))) = mdsf_columns := by
  have hcomp : (Prod.fst ∘ fun c : String => (c, ([] : List String))) = id := rfl
  rw [colNames, List.map_map, hcomp, List.map_id]

set_option maxHeartbeats 400000 in
theorem colNames_mapperStage1 (src : Table) : colNames (mapperStage1 src) = mdsf_columns := by
  unfold mapperStage1
  apply colNames_foldl_fixed _ _ _ ?hstep _ colNames_emptyFrame
  case hstep =>
    intro p hp t ht
    cases hg : getCol src p.1 with
    | none => simpa using ht
    | some v =>
      simp only []
      rw [colNames_setCol, ht, if_pos (field_mapping_targets_mem p hp)]

theorem colNames_mapperStage2 (src : Table) : colNames (mapperStage2 src) =
    mdsf_columns ++ helper_columns.filter (fun c => (getCol src c).isSome) := by
  unfold mapperStage2
  rw [colNames_helperFold src helper_columns (mapperStage1 src) helper_columns_nodup
      (fun c hc => (colNames_mapperStage1 src) ▸ helper_columns_not_in_mdsf c hc),
    colNames_mapperStage1 src]

set_option maxHeartbeats 400000 in
theorem colNames_mapperStage3 (src : Table) (uat : Bool) : colNames (mapperStage3 src uat) =
    mdsf_columns ++ helper_columns.filter (fun c => (getCol src c).isSome) := by
  unfold mapperStage3
  split
  · rw [colNames_setCol, colNames_setCol, colNames_mapperStage2]
    have hIcon : ("Icon" : String) ∈ mdsf_columns ++
        helper_columns.filter (fun c => (getCol src c).isSome) :=
      List.mem_append_left _ (by simp [mdsf_columns])
    have hDet : ("DetailImage" : String) ∈ mdsf_columns ++
        helper_columns.filter (fun c => (getCol src c).isSome) :=
      List.mem_append_left _ (by simp [mdsf_columns])
    rw [if_pos hIcon, if_pos hDet]
  · exact colNames_mapperStage2 src

set_option maxHeartbeats 400000 in
theorem colNames_map_to_mdsf_isSome (src : Table) (uat : Bool) :
    colNames (map_to_mdsf_table src uat) =
      mdsf_columns ++ helper_columns.filter (fun c => (getCol src c).isSome) := by
  unfold map_to_mdsf_table
  apply colNames_foldl_fixed _ _ _ ?hstep _ (colNames_mapperStage3 src uat)
  case hstep =>
    intro p hp t ht
    rw [colNames_setCol, ht, if_pos (List.mem_append_left _ (default_values_targets_mem p hp))]

theorem colNames_map_to_mdsf (src : Table) (uat : Bool) :
    colNames (map_to_mdsf_table src uat) =
      mdsf_columns ++ helper_columns.filter (fun c => (colNames src).contains c) := by
  rw [colNames_map_to_mdsf_isSome]
  congr 1
  exact List.filter_congr (fun c _ => getCol_isSome src c)

set_option maxHeartbeats 1000000 in
/-- Claim C2, counterexample: the fixed destination list has 63 columns
(not 61), and a source CSV carrying a helper column makes `map_to_mdsf`
append that helper column after the fixed list — so the output does not
consist of the fixed schema and nothing else. -/
theorem c2_fixed_columns_counterexample :
    colNames (map_to_mdsf_table c2src true) ≠ mdsf_columns ∧ mdsf_columns.length = 63 := by
  constructor
  · rw [colNames_map_to_mdsf]
    have hf : helper_columns.filter (fun c => (colNames c2src).contains c) =
        ["uStore_ProductID"] := by decide
    rw [hf]
    intro he
    have hlen := congrArg List.length he
    rw [List.length_append, List.length_singleton] at hlen
    omega
  · rfl

/-- Claim C2 (amended): for every source CSV, the output of `map_to_mdsf`
contains the fixed 63-column destination schema (`Name` through
`UseNewSmartCanvas`), in that fixed order, followed by exactly those of the
three helper columns (`uStore_ProductID`, `uStore_StoreID`,
`uStore_StoreName`) that are present in the source CSV, in that order, and
no other columns. -/
theorem c2_output_columns_amended (src : Table) (uat : Bool) :
    colNames (map_to_mdsf_table src uat) =
      mdsf_columns ++ helper_columns.filter (fun c => (colNames src).contains c) :=
  colNames_map_to_mdsf src uat

/-- Claim C8 (confirmed): whenever `map_to_mdsf`'s validation report is
nonempty, the output CSV was nevertheless written — with the full mapped
table, before validation ran — and the function still returns success. -/
theorem c8_validation_after_write (src : Table) (uat writeOk : Bool)
    (h : (map_to_mdsf_run src uat writeOk).errors ≠ []) :
    (map_to_mdsf_run src uat writeOk).written = some (map_to_mdsf_table src uat) ∧
      (map_to_mdsf_run src uat writeOk).success = true := by
  cases writeOk with
  | false => exact absurd rfl h
  | true => exact ⟨rfl, rfl⟩

set_option maxRecDepth 100000 in
set_option maxHeartbeats 0 in
/-- Witness for claim C8 at a source with a record missing `Name`,
`TicketTemplate` and `ContentFile`: the validation report is nonempty, the
output is written and the step reports success. -/
theorem c8_validation_after_write_witness :
    (map_to_mdsf_run c8src true true).errors ≠ [] ∧
      ((map_to_mdsf_run c8src true true).written = some (map_to_mdsf_table c8src true) ∧
       (map_to_mdsf_run c8src true true).success = true) :=
  ⟨by decide, c8_validation_after_write c8src true true (by decide)⟩



/-- Claim C4 (confirmed): whenever the active store criterion matches zero
rows, `filter_by_store` returns `False` and the output file is never
written; the write is only reached with at least one matching row. -/
theorem c4_zero_matches_not_written (inp : FilterInput) (h : matchedRows inp = []) :
    filter_by_store inp = (false, none) := by
  unfold matchedRows at h
  unfold filter_by_store
  cases hid : inp.store_id with
  | some sid =>
    rw [hid] at h
    simp only [hid]
    repeat' split
    all_goals first
    | rfl
    | simp_all
  | none =>
    rw [hid] at h
    simp only [hid]
    repeat' split
    all_goals first
    | rfl
    | simp_all

/-- Witness for claim C4: filtering one store-5 row by store id 70. -/
theorem c4_zero_matches_witness :
    matchedRows c4inp = [] ∧ filter_by_store c4inp = (false, none) :=
  ⟨by decide, c4_zero_matches_not_written c4inp (by decide)⟩

/-- Claim C5 (confirmed): when step `i` is the first step at or after the
start index whose step function raises, the orchestrator executes exactly
the steps from the start index through `i` (none with a larger index),
records the steps before `i` in `completed_steps`, records `i` as the sole
entry of `failed_steps` and as `current_step`, reports resumption via
`--start-from i`, and the run fails. -/
theorem c5_failure_aborts_pipeline :
    ∀ (f0 f1 f2 f3 f4 : Bool) (start i : Fin 5),
      start.val ≤ i.val →
      [f0, f1, f2, f3, f4].get i = true →
      (∀ j : Fin 5, start.val ≤ j.val → j.val < i.val → [f0, f1, f2, f3, f4].get j = false) →
      pipelineRun f0 f1 f2 f3 f4 start.val =
        { executed := (List.range 5).filter (fun j => decide (start.val ≤ j ∧ j ≤ i.val)),
          completed_steps := (List.range 5).filter (fun j => decide (start.val ≤ j ∧ j < i.val)),
          failed_steps := [i.val], current_step := i.val,
          resumeHint := some i.val, ok := false } := by decide

/-- Witness for claim C5: a full run where step 2 raises. -/
theorem c5_failure_aborts_witness :
    pipelineRun false false true false false 0 =
      { executed := [0, 1, 2], completed_steps := [0, 1],
        failed_steps := [2], current_step := 2, resumeHint := some 2, ok := false } := by
  have h := c5_failure_aborts_pipeline false false true false false ⟨0, by omega⟩ ⟨2, by omega⟩
    (by decide) (by decide) (by decide)
  exact h.trans (by decide)

/-- Claim C9 (confirmed): for a product whose `Product_<id>` directory (or
`Pages/Thumbnails` subdirectory) does not exist, `find_content_files` and
`find_thumbnail_files` return the empty list, the linked row carries
empty-string `ContentFile`, `Icon` and `DetailImage` fields, and
`link_assets` still completes successfully. -/
theorem c9_missing_dirs_empty_assets (fs : DirFS) (assetsP thumbsP : List (List Char))
    (rows : List LinkRow) (row : LinkRow)
    (h1 : (fs assetsP).isSome) (h2 : (fs thumbsP).isSome)
    (hc : fs (productFolder assetsP row.uStore_ProductID) = none)
    (ht : fs (thumbFolder thumbsP row.uStore_ProductID) = none) :
    find_content_files fs assetsP row.uStore_ProductID = [] ∧
    find_thumbnail_files fs thumbsP row.uStore_ProductID = [] ∧
    (linkRowStep fs assetsP thumbsP row).ContentFile = [] ∧
    (linkRowStep fs assetsP thumbsP row).Icon = [] ∧
    (linkRowStep fs assetsP thumbsP row).DetailImage = [] ∧
    link_assets fs true true assetsP thumbsP rows =
      some (rows.map (linkRowStep fs assetsP thumbsP)) := by
  have hfc : find_content_files fs assetsP row.uStore_ProductID = [] := by
    unfold find_content_files
    rw [hc]
  have hft : find_thumbnail_files fs thumbsP row.uStore_ProductID = [] := by
    unfold find_thumbnail_files
    rw [ht]
  have hnone1 : (fs assetsP).isNone = false := by
    cases hfs : fs assetsP
    · rw [hfs] at h1; simp at h1
    · rfl
  have hnone2 : (fs thumbsP).isNone = false := by
    cases hfs : fs thumbsP
    · rw [hfs] at h2; simp at h2
    · rfl
  refine ⟨hfc, hft, ?_, ?_, ?_, ?_⟩
  · simp [linkRowStep, hfc, hft]
  · simp [linkRowStep, hfc, hft]
  · simp [linkRowStep, hfc, hft]
  · simp [link_assets, hnone1, hnone2]

/-- Witness for claim C9: existing roots, no product-9 folders. -/
theorem c9_missing_dirs_witness :
    find_content_files c9fs [toL "assets"] (toL "9") = [] ∧
    find_thumbnail_files c9fs [toL "thumbs"] (toL "9") = [] ∧
    (linkRowStep c9fs [toL "assets"] [toL "thumbs"] { uStore_ProductID := toL "9" }).ContentFile = [] ∧
    (linkRowStep c9fs [toL "assets"] [toL "thumbs"] { uStore_ProductID := toL "9" }).Icon = [] ∧
    (linkRowStep c9fs [toL "assets"] [toL "thumbs"] { uStore_ProductID := toL "9" }).DetailImage = [] ∧
    link_assets c9fs true true [toL "assets"] [toL "thumbs"] c9rows =
      some (c9rows.map (linkRowStep c9fs [toL "assets"] [toL "thumbs"])) :=
  c9_missing_dirs_empty_assets c9fs [toL "assets"] [toL "thumbs"] c9rows
    { uStore_ProductID := toL "9" } (by decide) (by decide) (by decide) (by decide)

/-- Claim C6 (confirmed): whenever `create_package` reaches the cleaning
step (it requires `uStore_ProductID` in the input), the table written into
the archive staging directory as `products.csv` contains none of the
internal helper columns `uStore_ProductID`, `uStore_StoreID`,
`uStore_StoreName` — every helper column present in the input is dropped. -/
theorem c6_no_helper_in_package (cols : List String) (out : List String)
    (h : create_package_csv_columns cols = some out) :
    ∀ c ∈ helper_columns, ¬ c ∈ out := by
  intro c hch
  unfold create_package_csv_columns at h
  split at h
  case isTrue hid =>
    have hout : out = packagerCleanColumns cols := by
      injection h with h2
      exact h2.symm
    subst hout
    simp only [packagerCleanColumns]
    by_cases hmem : c ∈ cols
    · have hrm : c ∈ helper_columns.filter (fun d => cols.contains d) := by
        rw [List.mem_filter]
        exact ⟨hch, List.elem_iff.mpr hmem⟩
      have hne : helper_columns.filter (fun d => cols.contains d) ≠ [] := by
        intro h0
        rw [h0] at hrm
        exact absurd hrm (List.not_mem_nil c)
      rw [if_pos hne]
      intro hcf
      rw [List.mem_filter] at hcf
      have hb := hcf.2
      simp only [List.contains] at hb
      rw [List.elem_iff.mpr hrm] at hb
      simp at hb
    · split
      · exact fun hcf => hmem (List.mem_of_mem_filter hcf)
      · exact fun hcf => hmem hcf
  case isFalse => exact absurd h (by simp)

/-- Witness for claim C6: an input with all three helper columns. -/
theorem c6_no_helper_in_package_witness :
    ¬ ("uStore_ProductID" : String) ∈ packagerCleanColumns c6cols ∧
    ¬ ("uStore_StoreID" : String) ∈ packagerCleanColumns c6cols ∧
    ¬ ("uStore_StoreName" : String) ∈ packagerCleanColumns c6cols :=
  ⟨c6_no_helper_in_package c6cols (packagerCleanColumns c6cols) (by decide)
     "uStore_ProductID" (by decide),
   c6_no_helper_in_package c6cols (packagerCleanColumns c6cols) (by decide)
     "uStore_StoreID" (by decide),
   c6_no_helper_in_package c6cols (packagerCleanColumns c6cols) (by decide)
     "uStore_StoreName" (by decide)⟩

theorem runPackager_eq_flat (fs : SrcPath → Bool) (rows : List PkgRow) :
    runPackager fs rows =
      (refsOf rows).foldl (pkgStep fs) { copied := [], missing := [] } := by
  unfold runPackager refsOf
  suffices h : ∀ (l : List PkgRow) (s : PkgState),
      l.foldl (fun s row => (rowRefs row).foldl (pkgStep fs) s) s =
        (l.bind rowRefs).foldl (pkgStep fs) s from h rows _
  intro l
  induction l with
  | nil => intro s; rfl
  | cons row l ih =>
    intro s
    simp only [List.foldl_cons, List.cons_bind, List.foldl_append]
    exact ih _

theorem copiedNames_pkgStep_skip (fs : SrcPath → Bool) (s : PkgState) (r : Ref)
    (h : r.fname ∈ copiedNames s) : pkgStep fs s r = s := by
  unfold pkgStep
  rw [if_pos h]

theorem pkgStep_copy (fs : SrcPath → Bool) (s : PkgState) (r : Ref)
    (h1 : ¬ r.fname ∈ copiedNames s) (h2 : fs r.path = true) :
    pkgStep fs s r = { s with copied := s.copied ++ [(r.fname, r.path)] } := by
  unfold pkgStep
  rw [if_neg h1, if_pos h2]

theorem pkgStep_nocopy (fs : SrcPath → Bool) (s : PkgState) (r : Ref)
    (h2 : fs r.path = false) : (pkgStep fs s r).copied = s.copied := by
  unfold pkgStep
  split
  · rfl
  · rw [h2]
    simp only [Bool.false_eq_true, if_false]
    split
    · rfl
    · rfl

theorem pkgStep_missing_sub (fs : SrcPath → Bool) (s : PkgState) (r : Ref) :
    ∀ m ∈ (pkgStep fs s r).missing, m ∈ s.missing ∨ m = (r.pname, r.fname, r.kind) := by
  intro m hm
  unfold pkgStep at hm
  split at hm
  · exact Or.inl hm
  · split at hm
    · exact Or.inl hm
    · split at hm
      · exact Or.inl hm
      · simp only [List.mem_append, List.mem_singleton] at hm
        exact hm

theorem pkgFold_copied (fs : SrcPath → Bool) (n : List Char) :
    ∀ (refs : List Ref) (s : PkgState),
      ((refs.foldl (pkgStep fs) s).copied.filter (fun e => e.1 = n)) =
        s.copied.filter (fun e => e.1 = n) ++
        (if n ∈ copiedNames s then []
         else ((refs.find? (fun r => decide (r.fname = n) && fs r.path)).map
           (fun r => (r.fname, r.path))).toList) := by
  intro refs
  induction refs with
  | nil =>
    intro s
    simp only [List.foldl_nil, List.find?_nil, Option.map_none, Option.toList_none]
    split <;> simp
  | cons r refs ih =>
    intro s
    simp only [List.foldl_cons]
    by_cases h1 : r.fname ∈ copiedNames s
    · rw [copiedNames_pkgStep_skip fs s r h1, ih s]
      congr 1
      by_cases hns : n ∈ copiedNames s
      · rw [if_pos hns, if_pos hns]
      · have hrn : ¬ (decide (r.fname = n) && fs r.path) = true := by
          intro hb
          rw [Bool.and_eq_true, decide_eq_true_eq] at hb
          exact hns (hb.1 ▸ h1)
        rw [if_neg hns, if_neg hns, List.find?_cons_of_neg _ (by simpa using hrn)]
    · by_cases h2 : fs r.path
      · rw [pkgStep_copy fs s r h1 h2]
        rw [ih]
        have hnames : copiedNames { s with copied := s.copied ++ [(r.fname, r.path)] } =
            copiedNames s ++ [r.fname] := by
          simp [copiedNames]
        by_cases h3 : r.fname = n
        · subst h3
          have hmemnew : r.fname ∈
              copiedNames { s with copied := s.copied ++ [(r.fname, r.path)] } := by
            rw [hnames]
            simp
          rw [if_pos hmemnew, if_neg h1]
          simp only [List.find?]
          rw [h2]
          simp [List.filter_append]
        · have hmemnew : (n ∈ copiedNames { s with copied := s.copied ++ [(r.fname, r.path)] }) ↔
              n ∈ copiedNames s := by
            rw [hnames]
            simp [List.mem_append]
            intro he
            exact absurd he.symm h3
          have hfilter : ({ s with copied := s.copied ++ [(r.fname, r.path)] } : PkgState).copied.filter
              (fun e => e.1 = n) = s.copied.filter (fun e => e.1 = n) := by
            simp [List.filter_append, h3]
          rw [hfilter]
          have hpred : ¬ (decide (r.fname = n) && fs r.path) = true := by
            simp [h3]
          rw [List.find?_cons_of_neg _ (by simpa using hpred)]
          congr 1
          by_cases hns : n ∈ copiedNames s
          · rw [if_pos (hmemnew.mpr hns), if_pos hns]
          · rw [if_neg (fun hx => hns (hmemnew.mp hx)), if_neg hns]
      · have hcop : (pkgStep fs s r).copied = s.copied :=
          pkgStep_nocopy fs s r (by simpa using h2)
        have hnm : copiedNames (pkgStep fs s r) = copiedNames s := by
          unfold copiedNames
          rw [hcop]
        rw [ih, hcop, hnm]
        have hpred : ¬ (decide (r.fname = n) && fs r.path) = true := by
          simp [h2]
        rw [List.find?_cons_of_neg _ (by simpa using hpred)]

theorem copiedNames_mono (fs : SrcPath → Bool) (s : PkgState) (r : Ref) :
    ∀ x ∈ copiedNames s, x ∈ copiedNames (pkgStep fs s r) := by
  intro x hx
  unfold pkgStep
  split
  · exact hx
  · split
    · simp only [copiedNames, List.map_append]
      exact List.mem_append_left _ hx
    · split
      · exact hx
      · exact hx

theorem pkgFold_missing_safe (fs : SrcPath → Bool) (n : List Char) :
    ∀ (refs : List Ref) (s : PkgState),
      (∀ m ∈ s.missing, m.2.1 ≠ n) →
      (n ∈ copiedNames s ∨
        (∃ r0, refs.find? (fun r => decide (r.fname = n)) = some r0 ∧ fs r0.path = true)) →
      ∀ m ∈ (refs.foldl (pkgStep fs) s).missing, m.2.1 ≠ n := by
  intro refs
  induction refs with
  | nil =>
    intro s hinv _
    exact hinv
  | cons r refs ih =>
    intro s hinv hdisj
    simp only [List.foldl_cons]
    by_cases hrn : r.fname = n
    · rcases hdisj with hns | ⟨r0, hfind, hfs⟩
      · rw [copiedNames_pkgStep_skip fs s r (hrn ▸ hns)]
        exact ih s hinv (Or.inl hns)
      · have hpred : (decide (r.fname = n)) = true := by simp [hrn]
        have hr0 : r0 = r := by
          simp only [List.find?] at hfind
          rw [hpred] at hfind
          exact (Option.some.inj hfind).symm
        rw [hr0] at hfs
        by_cases hmem : r.fname ∈ copiedNames s
        · rw [copiedNames_pkgStep_skip fs s r hmem]
          exact ih s hinv (Or.inl (hrn ▸ hmem))
        · rw [pkgStep_copy fs s r hmem hfs]
          apply ih _ ?_ (Or.inl ?_)
          · intro m hm
            exact hinv m hm
          · simp only [copiedNames, List.map_append, List.map_cons, List.map_nil]
            rw [hrn]
            exact List.mem_append_right _ (List.mem_singleton_self n)
    · apply ih (pkgStep fs s r) ?_ ?_
      · intro m hm
        rcases pkgStep_missing_sub fs s r m hm with hold | hnew
        · exact hinv m hold
        · rw [hnew]
          exact hrn
      · rcases hdisj with hns | ⟨r0, hfind, hfs⟩
        · exact Or.inl (copiedNames_mono fs s r n hns)
        · refine Or.inr ⟨r0, ?_, hfs⟩
          have hpred : (decide (r.fname = n)) = false := by simp [hrn]
          simp only [List.find?] at hfind
          rw [hpred] at hfind
          exact hfind

set_option maxRecDepth 10000 in
/-- Claim C10, counterexample: when the first reference to a file name is
missing on disk, a later reference with the same name from a different
product is still copied, so it is not the case that every copy comes from
the first reference encountered with that name (and a posterior reference
is then neither skipped nor silent). -/
theorem c10_first_ref_counterexample : ¬ copiesAreFirstRefs c10fs c10rows := by
  unfold copiesAreFirstRefs
  decide

/-- Claim C10 (amended): deduplication is keyed on the bare file name
alone across the whole run, among successful copies: for each file name
`n`, the copies of `n` are exactly the first reference with name `n` whose
source exists on disk (at most one copy per name); and when the run's
first reference with name `n` exists on disk, no missing report ever
mentions `n` — every later reference with the same name, including one
from a different product whose source path is a different file, is skipped
silently, neither copied nor reported as missing. -/
theorem c10_dedup_amended (fs : SrcPath → Bool) (rows : List PkgRow) (n : List Char) :
    ((runPackager fs rows).copied.filter (fun e => e.1 = n) =
      ((refsOf rows).find? (fun r => decide (r.fname = n) && fs r.path)).elim []
        (fun r => [(r.fname, r.path)])) ∧
    (∀ r0, (refsOf rows).find? (fun r => decide (r.fname = n)) = some r0 →
      fs r0.path = true →
      ∀ m ∈ (runPackager fs rows).missing, m.2.1 ≠ n) := by
  constructor
  · rw [runPackager_eq_flat, pkgFold_copied]
    simp only [copiedNames, List.map_nil, List.not_mem_nil, if_neg, List.filter_nil,
      List.nil_append]
    cases hf : (refsOf rows).find? (fun r => decide (r.fname = n) && fs r.path) <;>
      simp [hf]
  · intro r0 hfind hfs
    rw [runPackager_eq_flat]
    exact pkgFold_missing_safe fs n (refsOf rows) _
      (fun m hm => absurd hm (List.not_mem_nil m)) (Or.inr ⟨r0, hfind, hfs⟩)

set_option maxRecDepth 10000 in
/-- Witness for claim C10's amended theorem: product 1 references a
missing `g.pdf` and an existing `f.pdf`; product 2 references a different
file also named `f.pdf`, which is skipped silently. -/
theorem c10_dedup_amended_witness :
    ((runPackager c10wfs c10wrows).copied.filter (fun e => e.1 = toL "f.pdf") =
      ((refsOf c10wrows).find? (fun r => decide (r.fname = toL "f.pdf") && c10wfs r.path)).elim []
        (fun r => [(r.fname, r.path)])) ∧
    (toL "P1", toL "g.pdf", ("PDF" : String)).2.1 ≠ toL "f.pdf" :=
  ⟨(c10_dedup_amended c10wfs c10wrows (toL "f.pdf")).1,
   (c10_dedup_amended c10wfs c10wrows (toL "f.pdf")).2
     { fname := toL "f.pdf", path := SrcPath.content (toL "1") (toL "f.pdf"),
       kind := "PDF", pname := toL "P1" }
     (by decide) (by decide) (toL "P1", toL "g.pdf", "PDF") (by decide)⟩


end MDSF
